import Mathlib

/-!
Verification of the `ChatHistoryUI` terminal browser (the interactive
tabular data browser of the discord-llm-bot repository).

The Python module `ChatHistoryUI.py` is shallowly embedded below:

* `TableUI` mirrors the mutable fields of the Python `TableUI` class
  (sorting state, cached query result, selection, overlay state, cached
  terminal dimensions).  Python integers are modelled as `Int`, since
  `selected_row` can in fact become negative.
* Database values are modelled as their string renderings (`Row := List
  String`), so Python's `str(val)` is the identity; field equality used by
  the delete query becomes string equality.
* Python list indexing / `del` / slicing, `str.splitlines`, and
  `textwrap.wrap` are modelled by `pyIndex`, `pyDelAt`, `pySlice`,
  `pySplitlines` and `textwrapWrap`.
* Operations that can raise (`rows[selected_row]` on an empty list) return
  `Option`/`Except`, with `none`/`.error` marking the raised exception.
* The RecordStore is modelled as a query function passed explicitly, and
  (for delete) as a list of persisted rows in schema order.
-/

namespace ChatHistoryUI

/-- A database row, each field already stringified (values are SQLite
scalars; `str` on them is modelled as the identity). -/
abbrev Row := List String

/-- The `messages` table schema column order (`SELECT *` result order). -/
def SCHEMA_COLS : List String :=
  ["id", "user_id", "user_name", "channel_id", "is_dm", "role", "content", "timestamp"]

/-- `TableUI._VISIBLE_COLS`: the four columns shown in the table. -/
def VISIBLE_COLS : List String := ["user_name", "is_dm", "role", "timestamp"]

/-! ### Python container primitives -/

/-- Python list indexing `xs[i]`: non-negative indices from the front,
negative indices from the back, `none` models the raised `IndexError`. -/
def pyIndex {α : Type} (xs : List α) (i : Int) : Option α :=
  if 0 ≤ i then xs.get? i.toNat
  else
    let j := (xs.length : Int) + i
    if 0 ≤ j then xs.get? j.toNat else none

/-- Python `del xs[i]`, with the same index normalisation as `pyIndex`;
`none` models the raised `IndexError`. -/
def pyDelAt {α : Type} (xs : List α) (i : Int) : Option (List α) :=
  if 0 ≤ i then
    if i < (xs.length : Int) then some (xs.eraseIdx i.toNat) else none
  else
    let j := (xs.length : Int) + i
    if 0 ≤ j then some (xs.eraseIdx j.toNat) else none

/-- Python slice `xs[start:stop]` (step 1): indices are clamped to
`[0, len]`, negative indices count from the back. -/
def pySlice {α : Type} (xs : List α) (start stop : Int) : List α :=
  let n := xs.length
  let s := if start < 0 then ((n : Int) + start).toNat else min start.toNat n
  let e := if stop < 0 then ((n : Int) + stop).toNat else min stop.toNat n
  (xs.take e).drop s

/-! ### `str.splitlines` and `textwrap.wrap` models -/

/-- Split a character list at every character satisfying `p`,
dropping the separators: `n` separators yield `n + 1` (possibly empty)
pieces. -/
def splitCharsAt (p : Char → Bool) : List Char → List (List Char)
  | [] => [[]]
  | c :: cs =>
    if p c then [] :: splitCharsAt p cs
    else
      match splitCharsAt p cs with
      | [] => [[c]]
      | piece :: rest => (c :: piece) :: rest

/-- Python `str.splitlines()` (newline-terminated strings produce no
trailing empty line; the empty string produces no lines at all). -/
def pySplitlines (s : String) : List String :=
  let parts := (splitCharsAt (fun c => c = '\n') s.data).map (fun l => String.mk l)
  if parts.getLast? = some "" then parts.dropLast else parts

/-- Split a string on runs of whitespace, dropping empty pieces (the chunk
step of `textwrap.wrap`; a blank or whitespace-only string has no words). -/
def splitWords (s : String) : List String :=
  ((splitCharsAt (fun c => c = ' ' ∨ c = '\t' ∨ c = '\r') s.data).map
    (fun l => String.mk l)).filter (fun w => w ≠ "")

/-- Cut a character list into consecutive chunks of `width` characters
(the last chunk may be shorter); `fuel` bounds the recursion. -/
def chunksOfAux (width : Nat) : Nat → List Char → List (List Char)
  | 0, _ => []
  | _, [] => []
  | fuel + 1, cs => cs.take width :: chunksOfAux width fuel (cs.drop width)

/-- Cut a character list into consecutive chunks of `width` characters. -/
def chunksOf (width : Nat) (cs : List Char) : List (List Char) :=
  chunksOfAux width cs.length cs

/-- Place one word at the start of a fresh line: a word longer than
`width` is broken into full-width lines, the remainder starting the next
line (models `textwrap`'s `break_long_words=True` handling). Returns the
completed lines and the new current line. -/
def startWord (width : Nat) (w : String) : List String × String :=
  if w.length ≤ width then ([], w)
  else
    let chunks := (chunksOf width w.data).map (fun l => String.mk l)
    (chunks.dropLast, chunks.getLastD "")

/-- Greedy line filling over the word list (`textwrap`'s `_wrap_chunks`):
words are joined by single spaces while the line stays within `width`. -/
def wrapFill (width : Nat) (cur : String) : List String → List String
  | [] => if cur.isEmpty then [] else [cur]
  | w :: ws =>
    if cur.isEmpty then
      let p := startWord width w
      p.1 ++ wrapFill width p.2 ws
    else if cur.length + 1 + w.length ≤ width then
      wrapFill width (cur ++ " " ++ w) ws
    else
      let p := startWord width w
      cur :: (p.1 ++ wrapFill width p.2 ws)

/-- Model of Python `textwrap.wrap(text, width=width)` with default
options: whitespace is collapsed, long words are broken greedily, and a
string with no words wraps to no lines (hyphen breaking not modelled; no
input in this development contains hyphens). -/
def textwrapWrap (text : String) (width : Nat) : List String :=
  wrapFill width "" (splitWords text)

/-- The wrapped-line list shared by overlay rendering and scrolling:
`[line for raw in overlay_content.splitlines() for line in textwrap.wrap(raw, width)]`. -/
def wrappedLines (content : String) (width : Nat) : List String :=
  (pySplitlines content).flatMap (fun raw => textwrapWrap raw width)

/-! ### The `TableUI` state -/

/-- The mutable fields of the Python `TableUI` instance.  `body_height`
and `body_width` are the cached terminal dimensions (`size.lines - 1` and
`size.columns`, or the 23/80 non-interactive fallback). -/
structure TableUI where
  sort_col : Option String
  last_sort_col : Option String
  sort_descending : Bool
  cols : List String
  rows : List Row
  selected_row : Int
  selected_col : Int
  overlay_content : Option String
  overlay_offset : Int
  body_height : Int
  body_width : Nat
deriving Repr, DecidableEq

/-! ### Key handlers (`_bind_keys`)

Each handler becomes a function on `TableUI`; handlers that index
`self.rows` return `Option` (`none` = raised `IndexError`).  The
`event.app.invalidate()` side effect is pure redraw signalling and is
kept only where a claim mentions it (the refresh tick). -/

/-- `_move_left`. -/
def move_left (ui : TableUI) : TableUI :=
  if ui.overlay_content = none then
    { ui with selected_col := max 0 (ui.selected_col - 1) }
  else ui

/-- `_move_right`. -/
def move_right (ui : TableUI) : TableUI :=
  if ui.overlay_content = none then
    { ui with selected_col := min ((VISIBLE_COLS.length : Int) - 1) (ui.selected_col + 1) }
  else ui

/-- `_move_up`. -/
def move_up (ui : TableUI) : TableUI :=
  match ui.overlay_content with
  | none => { ui with selected_row := max 0 (ui.selected_row - 1) }
  | some _ => { ui with overlay_offset := max 0 (ui.overlay_offset - 1) }

/-- `_move_down`.  Note: in table mode the new row index is
`min(len(rows) - 1, selected_row + 1)` with no lower clamp. -/
def move_down (ui : TableUI) : TableUI :=
  match ui.overlay_content with
  | none => { ui with selected_row := min ((ui.rows.length : Int) - 1) (ui.selected_row + 1) }
  | some content =>
    let wrapped := wrappedLines content ui.body_width
    let max_offset := max 0 ((wrapped.length : Int) - ui.body_height)
    { ui with overlay_offset := min max_offset (ui.overlay_offset + 1) }

/-- `_toggle_overlay`: in table mode capture `str(rows[selected_row][6])`
(the content column) and reset the scroll offset; in overlay mode clear
the overlay content (the offset is left as is).  `none` models the
`IndexError` raised by `self.rows[self.selected_row]`. -/
def toggle_overlay (ui : TableUI) : Option TableUI :=
  match ui.overlay_content with
  | none =>
    match pyIndex ui.rows ui.selected_row with
    | none => none
    | some row =>
      match pyIndex row 6 with
      | none => none
      | some v => some { ui with overlay_content := some v, overlay_offset := 0 }
  | some _ => some { ui with overlay_content := none }

/-- The `WHERE` clause of the delete lookup: the stored row (in schema
order) matches the in-memory row on `user_id, user_name, channel_id,
is_dm, role, content, timestamp` (positions 1–7 of both). -/
def deleteMatch (stored row : Row) : Bool :=
  decide (stored.get? 1 = row.get? 1 ∧ stored.get? 2 = row.get? 2 ∧
    stored.get? 3 = row.get? 3 ∧ stored.get? 4 = row.get? 4 ∧
    stored.get? 5 = row.get? 5 ∧ stored.get? 6 = row.get? 6 ∧
    stored.get? 7 = row.get? 7)

/-- `_delete_row`: no-op while the overlay is open; otherwise look up the
persisted row matching every field of `rows[selected_row]`, delete it by
id when found, then unconditionally `del rows[selected_row]` and clamp
the selection.  The store is the list of persisted schema-order rows;
`none` models the `IndexError` raised on an empty row list. -/
def delete_row (ui : TableUI) (store : List Row) : Option (TableUI × List Row) :=
  match ui.overlay_content with
  | some _ => some (ui, store)
  | none =>
    match pyIndex ui.rows ui.selected_row with
    | none => none
    | some row =>
      let found := store.find? (fun s => deleteMatch s row)
      let store' := match found with
        | some s => store.filter (fun r => r.get? 0 ≠ s.get? 0)
        | none => store
      match pyDelAt ui.rows ui.selected_row with
      | none => none
      | some rows' =>
        let sr := if ui.selected_row ≥ (rows'.length : Int) then
            max 0 ((rows'.length : Int) - 1)
          else ui.selected_row
        some ({ ui with rows := rows', selected_row := sr }, store')

/-- `_sort_column`: take the visible column under the cursor, toggle the
direction when it was the last sorted column, re-query and reset the row
selection.  `query` is the RecordStore adapter `_query`; `none` models
the `IndexError` from `_VISIBLE_COLS[selected_col]`. -/
def sort_column (query : String → Bool → List String × List Row) (ui : TableUI) :
    Option TableUI :=
  match pyIndex VISIBLE_COLS ui.selected_col with
  | none => none
  | some col_name =>
    let desc := if ui.last_sort_col = some col_name then !ui.sort_descending else true
    let qr := query col_name desc
    some { ui with
      sort_col := some col_name
      last_sort_col := some col_name
      sort_descending := desc
      cols := qr.1
      rows := qr.2
      selected_row := 0 }

/-! ### Navigation key sequences -/

/-- The four arrow keys. -/
inductive NavKey | left | right | up | down
deriving Repr, DecidableEq

/-- Dispatch one arrow-key press. -/
def applyNav : NavKey → TableUI → TableUI
  | .left, ui => move_left ui
  | .right, ui => move_right ui
  | .up, ui => move_up ui
  | .down, ui => move_down ui

/-- Dispatch a sequence of arrow-key presses, oldest first. -/
def applyNavs (ks : List NavKey) (ui : TableUI) : TableUI :=
  ks.foldl (fun s k => applyNav k s) ui

/-! ### The background refresh loop (`_periodic_refresh`) -/

/-- One tick of `_periodic_refresh`: run `_query(sort_col,
sort_descending)`; on success replace the cache and request a redraw only
when the result differs (the returned `Bool` is whether
`app.invalidate()` was called); a query failure propagates (there is no
exception handler in the loop body). -/
def refresh_tick (query : Option String → Bool → Except String (List String × List Row))
    (ui : TableUI) : Except String (TableUI × Bool) :=
  match query ui.sort_col ui.sort_descending with
  | .error e => .error e
  | .ok qr =>
    if qr.2 ≠ ui.rows ∨ qr.1 ≠ ui.cols then
      .ok ({ ui with cols := qr.1, rows := qr.2 }, true)
    else
      .ok (ui, false)

/-- `n` iterations of the `while True` refresh loop: an exception escapes
the loop and terminates the coroutine. -/
def refresh_loop (query : Option String → Bool → Except String (List String × List Row)) :
    Nat → TableUI → Except String TableUI
  | 0, ui => .ok ui
  | n + 1, ui =>
    match refresh_tick query ui with
    | .error e => .error e
    | .ok p => refresh_loop query n p.1

/-! ### Rendering (`_render_body`) -/

/-- The style of a body cell: `"reverse"` exactly on the selected cell. -/
def cellStyle (ui : TableUI) (r_idx c_idx : Nat) : String :=
  if (r_idx : Int) = ui.selected_row ∧ (c_idx : Int) = ui.selected_col then "reverse" else ""

/-- One body cell: `f" {str(val)[:30]:30} "` — the value truncated to 30
characters, left-justified in a 30-character field, with one space of
padding on each side. -/
def pyStrFormatCell (val : String) : String :=
  let t := String.mk (val.data.take 30)
  " " ++ (t ++ String.mk (List.replicate (30 - t.length) ' ')) ++ " "

/-- `_render_body`: in overlay mode the visible window of the wrapped
lines, one fragment per line; in table mode one fixed-width cell fragment
per visible column per row, plus one ``"\n"`` fragment per row.  `none`
models a raised exception (`cols.index` failing or a row shorter than a
visible column index). -/
def render_body (ui : TableUI) : Option (List (String × String)) :=
  match ui.overlay_content with
  | some content =>
    let wrapped := wrappedLines content ui.body_width
    let start := ui.overlay_offset
    let stop := min (start + ui.body_height) ((wrapped.length : Int))
    some ((pySlice wrapped start stop).map (fun line => ("", line ++ "\n")))
  | none => do
    let visible_idx ← VISIBLE_COLS.mapM (fun c => ui.cols.findIdx? (fun x => x = c))
    let blocks ← ui.rows.enum.mapM (fun p => do
      let cells ← visible_idx.enum.mapM (fun q => do
        let val ← p.2.get? q.2
        pure (cellStyle ui p.1 q.1, pyStrFormatCell val))
      pure (cells ++ [((""), "\n")]))
    pure blocks.flatten

/-! ### Concrete states used in witnesses and counterexamples -/

/-- The startup state when the initial query returns no rows (an empty
`messages` table), with the 23/80 non-interactive terminal fallback. -/
def emptyUI : TableUI :=
  { sort_col := none, last_sort_col := none, sort_descending := true,
    cols := SCHEMA_COLS, rows := [], selected_row := 0, selected_col := 0,
    overlay_content := none, overlay_offset := 0, body_height := 23, body_width := 80 }

/-- A sample persisted row, in schema order. -/
def sampleRow : Row :=
  ["1", "1001", "alice", "2001", "1", "assistant", "Answer 1", "2024-02-08T10:00:00Z"]

/-- A startup state whose initial query returned exactly `sampleRow`. -/
def oneRowUI : TableUI :=
  { sort_col := none, last_sort_col := none, sort_descending := true,
    cols := SCHEMA_COLS, rows := [sampleRow], selected_row := 0, selected_col := 0,
    overlay_content := none, overlay_offset := 0, body_height := 23, body_width := 80 }

/-! ### Navigation invariants (claim C1) -/

/-- Selection bounds actually maintained by the navigation handlers:
`selected_col` stays in `[0, 3]`; with a non-empty row cache
`selected_row` stays in `[0, rowCount - 1]`; with an empty row cache
`selected_row` is `0` or `-1` (a down press yields
`min(len([]) - 1, _) = -1`). -/
def navInvariant (ui : TableUI) : Prop :=
  0 ≤ ui.selected_col ∧ ui.selected_col ≤ 3 ∧
    (if ui.rows = [] then ui.selected_row = 0 ∨ ui.selected_row = -1
     else 0 ≤ ui.selected_row ∧ ui.selected_row < (ui.rows.length : Int))

theorem applyNav_overlay_none (k : NavKey) (ui : TableUI)
    (h : ui.overlay_content = none) : (applyNav k ui).overlay_content = none := by
  cases k <;> simp [applyNav, move_left, move_right, move_up, move_down, h]

theorem applyNav_navInvariant (k : NavKey) (ui : TableUI)
    (hmode : ui.overlay_content = none) (hinv : navInvariant ui) :
    navInvariant (applyNav k ui) := by
  obtain ⟨h1, h2, h3⟩ := hinv
  cases k <;>
    simp only [applyNav, move_left, move_right, move_up, move_down, hmode, if_true,
      reduceCtorEq, ite_true, navInvariant, VISIBLE_COLS] at h3 ⊢ <;>
    split_ifs at h3 ⊢ with hrows <;>
    simp_all <;> omega

/-- claim C1, counterexample: from the reachable startup state with an
empty row cache (`selected_row = 0`, TABLE mode), a single down press
drives `selected_row` to `-1` — it is not clamped to `0`. -/
theorem c1_counterexample :
    emptyUI.overlay_content = none ∧ emptyUI.rows = [] ∧ emptyUI.selected_row = 0 ∧
      (applyNavs [NavKey.down] emptyUI).selected_row = -1 ∧
      ¬(applyNavs [NavKey.down] emptyUI).selected_row = 0 := by
  refine ⟨rfl, rfl, rfl, by decide, by decide⟩

/-- claim C1 (amended): in TABLE mode, any sequence of navigation key
presses keeps `selected_col` in `[0, 3]` and, when the cached row list is
non-empty, keeps `selected_row` in `[0, rowCount - 1]` (clamping, not
wraparound); when the cached row list is empty, `selected_row` is not
clamped to `0`: it ranges over `{0, -1}`. -/
theorem c1_nav_clamped (ui : TableUI) (ks : List NavKey)
    (hmode : ui.overlay_content = none) (hinv : navInvariant ui) :
    navInvariant (applyNavs ks ui) := by
  induction ks generalizing ui with
  | nil => exact hinv
  | cons k ks ih =>
    have h1 := applyNav_overlay_none k ui hmode
    have h2 := applyNav_navInvariant k ui hmode hinv
    simpa [applyNavs, List.foldl_cons] using ih (applyNav k ui) h1 h2

/-- Witness for `c1_nav_clamped` at a concrete state and key sequence. -/
theorem c1_nav_clamped_witness :
    navInvariant (applyNavs [NavKey.down, NavKey.down, NavKey.right, NavKey.up] oneRowUI) :=
  c1_nav_clamped oneRowUI [NavKey.down, NavKey.down, NavKey.right, NavKey.up]
    rfl (by constructor <;> simp [oneRowUI])

/-! ### Sorting (claim C2) -/

/-- claim C2: in TABLE mode, the sort key takes the visible column under
the cursor; it flips `sort_descending` when that column was the last
sorted column and resets it to `true` otherwise; it records the column as
last sorted, re-runs the query with the new direction, replaces the
cached columns and rows with the query result, and resets `selected_row`
to `0`. -/
theorem c2_sort_column (ui : TableUI)
    (query : String → Bool → List String × List Row) (col : String)
    (hmode : ui.overlay_content = none)
    (hcol : pyIndex VISIBLE_COLS ui.selected_col = some col) :
    ∃ ui', sort_column query ui = some ui' ∧
      ui'.sort_descending =
        (if ui.last_sort_col = some col then !ui.sort_descending else true) ∧
      ui'.last_sort_col = some col ∧
      ui'.sort_col = some col ∧
      ui'.cols = (query col ui'.sort_descending).1 ∧
      ui'.rows = (query col ui'.sort_descending).2 ∧
      ui'.selected_row = 0 := by
  refine ⟨{ ui with
      sort_col := some col
      last_sort_col := some col
      sort_descending := if ui.last_sort_col = some col then !ui.sort_descending else true
      cols := (query col (if ui.last_sort_col = some col then !ui.sort_descending else true)).1
      rows := (query col (if ui.last_sort_col = some col then !ui.sort_descending else true)).2
      selected_row := 0 }, ?_, rfl, rfl, rfl, rfl, rfl, rfl⟩
  simp only [sort_column, hcol]

/-- Witness for `c2_sort_column`: pressing sort twice on the same column
flips the direction back to ascending. -/
theorem c2_sort_column_witness :
    ∃ ui', sort_column (fun _ _ => (SCHEMA_COLS, [sampleRow]))
        { oneRowUI with last_sort_col := some "user_name" } = some ui' ∧
      ui'.sort_descending =
        (if ({ oneRowUI with last_sort_col := some "user_name" } : TableUI).last_sort_col
            = some "user_name"
         then !({ oneRowUI with last_sort_col := some "user_name" } : TableUI).sort_descending
         else true) ∧
      ui'.last_sort_col = some "user_name" ∧
      ui'.sort_col = some "user_name" ∧
      ui'.cols = ((fun (_ : String) (_ : Bool) => (SCHEMA_COLS, [sampleRow])) "user_name"
        ui'.sort_descending).1 ∧
      ui'.rows = ((fun (_ : String) (_ : Bool) => (SCHEMA_COLS, [sampleRow])) "user_name"
        ui'.sort_descending).2 ∧
      ui'.selected_row = 0 :=
  c2_sort_column { oneRowUI with last_sort_col := some "user_name" }
    (fun _ _ => (SCHEMA_COLS, [sampleRow])) "user_name" rfl (by decide)

/-! ### Delete with no matching persisted row (claim C3) -/

/-- A successful Python index into a list guarantees the matching
`del xs[i]` succeeds and removes exactly one element. -/
theorem pyDelAt_of_pyIndex {α : Type} (xs : List α) (i : Int) (a : α)
    (h : pyIndex xs i = some a) :
    ∃ ys, pyDelAt xs i = some ys ∧ ys.length + 1 = xs.length := by
  unfold pyIndex at h
  unfold pyDelAt
  by_cases hpos : 0 ≤ i
  · rw [if_pos hpos] at h
    rw [if_pos hpos]
    obtain ⟨hlt, -⟩ := List.get?_eq_some.1 h
    have hilt : i < (xs.length : Int) := by omega
    refine ⟨xs.eraseIdx i.toNat, by rw [if_pos hilt], ?_⟩
    rw [List.length_eraseIdx, if_pos hlt]
    omega
  · rw [if_neg hpos] at h
    rw [if_neg hpos]
    dsimp only at h ⊢
    by_cases hj : 0 ≤ (xs.length : Int) + i
    · rw [if_pos hj] at h
      rw [if_pos hj]
      obtain ⟨hlt, -⟩ := List.get?_eq_some.1 h
      refine ⟨_, rfl, ?_⟩
      rw [List.length_eraseIdx, if_pos hlt]
      omega
    · rw [if_neg hj] at h
      exact absurd h (by simp)

/-- claim C3, counterexample: deleting in TABLE mode with an empty store
(so no persisted row matches the selected row on every field) leaves the
store unchanged but still removes the selected row from the cached list —
the in-memory removal is unconditional, not skipped. -/
theorem c3_counterexample :
    oneRowUI.rows.length = 1 ∧
      delete_row oneRowUI [] = some ({ oneRowUI with
        rows := []
        selected_row := 0 }, []) := by
  exact ⟨rfl, by decide⟩

/-- claim C3 (amended): when no persisted row matches every field of the
selected in-memory row, the store is left unchanged, but the delete is
not a no-op on the cache: the selected row is still removed from the
cached row list (removal happens regardless of identity resolution). -/
theorem c3_delete_no_match (ui : TableUI) (store : List Row) (row : Row)
    (hmode : ui.overlay_content = none)
    (hrow : pyIndex ui.rows ui.selected_row = some row)
    (hnomatch : store.find? (fun s => deleteMatch s row) = none) :
    ∃ ui', delete_row ui store = some (ui', store) ∧
      ui'.rows.length + 1 = ui.rows.length := by
  obtain ⟨ys, hdel, hlen⟩ := pyDelAt_of_pyIndex ui.rows ui.selected_row row hrow
  refine ⟨{ ui with
      rows := ys
      selected_row := if ui.selected_row ≥ (ys.length : Int) then
          max 0 ((ys.length : Int) - 1)
        else ui.selected_row }, ?_, hlen⟩
  simp only [delete_row, hmode, hrow, hnomatch, hdel]

/-- Witness for `c3_delete_no_match` at the concrete one-row state and an
empty store. -/
theorem c3_delete_no_match_witness :
    ∃ ui', delete_row oneRowUI [] = some (ui', []) ∧
      ui'.rows.length + 1 = oneRowUI.rows.length :=
  c3_delete_no_match oneRowUI [] sampleRow rfl (by decide) rfl

/-! ### The refresh tick (claims C4 and C5) -/

/-- claim C4: a refresh tick whose query succeeds never touches the
selection, overlay, sorting or terminal-dimension state: it replaces the
cached columns and rows with the query result and requests a redraw
exactly when the result differs from the cache (returning the unchanged
state and no redraw otherwise). -/
theorem c4_refresh_tick_preserves (ui : TableUI)
    (query : Option String → Bool → Except String (List String × List Row))
    (qr : List String × List Row)
    (hq : query ui.sort_col ui.sort_descending = .ok qr) :
    ∃ ui' b, refresh_tick query ui = .ok (ui', b) ∧
      ui'.selected_row = ui.selected_row ∧
      ui'.selected_col = ui.selected_col ∧
      ui'.overlay_content = ui.overlay_content ∧
      ui'.overlay_offset = ui.overlay_offset ∧
      ui'.sort_col = ui.sort_col ∧
      ui'.last_sort_col = ui.last_sort_col ∧
      ui'.sort_descending = ui.sort_descending ∧
      ui'.body_height = ui.body_height ∧
      ui'.body_width = ui.body_width ∧
      ui'.cols = qr.1 ∧ ui'.rows = qr.2 ∧
      (b = false → ui' = ui) ∧
      b = decide (qr.2 ≠ ui.rows ∨ qr.1 ≠ ui.cols) := by
  unfold refresh_tick
  rw [hq]
  by_cases hne : qr.2 ≠ ui.rows ∨ qr.1 ≠ ui.cols
  · refine ⟨{ ui with cols := qr.1, rows := qr.2 }, true, ?_⟩
    simp [hne]
  · push_neg at hne
    refine ⟨ui, false, ?_⟩
    have h1 : qr.2 = ui.rows := hne.1
    have h2 : qr.1 = ui.cols := hne.2
    simp [h1, h2]

/-- Witness for `c4_refresh_tick_preserves` at a concrete state and a
concrete query returning changed data. -/
theorem c4_refresh_tick_preserves_witness :
    ∃ ui' b, refresh_tick (fun _ _ => .ok (SCHEMA_COLS, [sampleRow])) emptyUI
        = .ok (ui', b) ∧
      ui'.selected_row = emptyUI.selected_row ∧
      ui'.selected_col = emptyUI.selected_col ∧
      ui'.overlay_content = emptyUI.overlay_content ∧
      ui'.overlay_offset = emptyUI.overlay_offset ∧
      ui'.sort_col = emptyUI.sort_col ∧
      ui'.last_sort_col = emptyUI.last_sort_col ∧
      ui'.sort_descending = emptyUI.sort_descending ∧
      ui'.body_height = emptyUI.body_height ∧
      ui'.body_width = emptyUI.body_width ∧
      ui'.cols = (SCHEMA_COLS, [sampleRow]).1 ∧ ui'.rows = (SCHEMA_COLS, [sampleRow]).2 ∧
      (b = false → ui' = emptyUI) ∧
      b = decide ((SCHEMA_COLS, [sampleRow]).2 ≠ emptyUI.rows ∨
        (SCHEMA_COLS, [sampleRow]).1 ≠ emptyUI.cols) :=
  c4_refresh_tick_preserves emptyUI (fun _ _ => .ok (SCHEMA_COLS, [sampleRow]))
    (SCHEMA_COLS, [sampleRow]) rfl

/-- A query that always fails (the store is unreachable). -/
def failingQuery : Option String → Bool → Except String (List String × List Row) :=
  fun _ _ => .error "database is locked"

/-- claim C5, counterexample: with a failing query the refresh loop does
not swallow the failure and retry — the exception escapes the
`while True` body (there is no handler), terminating the loop with the
error instead of continuing to the next tick. -/
theorem c5_counterexample :
    refresh_tick failingQuery emptyUI = .error "database is locked" ∧
      refresh_loop failingQuery 3 emptyUI = .error "database is locked" := by
  exact ⟨rfl, rfl⟩

/-- claim C5 (amended): a query failure during a refresh tick happens
before any cache mutation, so the cached columns and rows are unchanged,
but the failure is not swallowed: the exception propagates out of the
tick and terminates the refresh loop — the query is not retried on a
next tick. -/
theorem c5_refresh_failure (ui : TableUI)
    (query : Option String → Bool → Except String (List String × List Row))
    (e : String) (n : Nat)
    (hq : query ui.sort_col ui.sort_descending = .error e) :
    refresh_tick query ui = .error e ∧
      refresh_loop query (n + 1) ui = .error e := by
  have ht : refresh_tick query ui = .error e := by
    unfold refresh_tick
    rw [hq]
  exact ⟨ht, by unfold refresh_loop; rw [ht]⟩

/-- Witness for `c5_refresh_failure` at a concrete state and failing
query. -/
theorem c5_refresh_failure_witness :
    refresh_tick failingQuery oneRowUI = .error "database is locked" ∧
      refresh_loop failingQuery 5 oneRowUI = .error "database is locked" :=
  c5_refresh_failure oneRowUI failingQuery "database is locked" 4 rfl

/-! ### The overlay toggle (claim C7) -/

/-- A content string of 24 one-character lines — one line more than the
fallback body height of 23. -/
def longContent : String :=
  String.mk ((List.replicate 23 ['a', '\n']).flatten ++ ['a'])

/-- A persisted row carrying `longContent` in the content column. -/
def longRow : Row :=
  ["1", "1001", "alice", "2001", "1", "assistant", longContent, "2024-02-08T10:00:00Z"]

/-- A startup state whose initial query returned exactly `longRow`. -/
def longUI : TableUI :=
  { sort_col := none, last_sort_col := none, sort_descending := true,
    cols := SCHEMA_COLS, rows := [longRow], selected_row := 0, selected_col := 0,
    overlay_content := none, overlay_offset := 0, body_height := 23, body_width := 80 }

/-- claim C7, counterexample: open the overlay on a row whose content
wraps to 24 lines (body height 23), scroll down once, close the overlay:
the resulting state is in TABLE mode (`overlay_content = none`) but
`overlay_offset` is `1`, not `0` — the OVERLAY→TABLE toggle does not
reset the offset. -/
theorem c7_counterexample :
    ((toggle_overlay longUI).map move_down).bind toggle_overlay =
      some { longUI with overlay_offset := 1 } := by
  decide

/-- claim C7 (amended): the OVERLAY→TABLE toggle clears `overlay_text`
but leaves `overlay_offset` untouched, so a TABLE-mode state can carry a
stale non-zero offset; `overlay_offset` is instead reset to `0` by the
TABLE→OVERLAY toggle, which captures the content field of the selected
row. -/
theorem c7_toggle_overlay (ui : TableUI) :
    (∀ c, ui.overlay_content = some c →
      toggle_overlay ui = some { ui with overlay_content := none }) ∧
    (∀ row v, ui.overlay_content = none →
      pyIndex ui.rows ui.selected_row = some row →
      pyIndex row 6 = some v →
      toggle_overlay ui = some { ui with
        overlay_content := some v
        overlay_offset := 0 }) := by
  constructor
  · intro c hc
    simp only [toggle_overlay, hc]
  · intro row v hmode hrow hv
    simp only [toggle_overlay, hmode, hrow, hv]

/-- Witness for `c7_toggle_overlay` at concrete overlay and table
states. -/
theorem c7_toggle_overlay_witness :
    toggle_overlay { oneRowUI with overlay_content := some "Answer 1" }
        = some { { oneRowUI with overlay_content := some "Answer 1" } with
          overlay_content := none } ∧
      toggle_overlay oneRowUI = some { oneRowUI with
        overlay_content := some "Answer 1"
        overlay_offset := 0 } :=
  ⟨(c7_toggle_overlay { oneRowUI with overlay_content := some "Answer 1" }).1
      "Answer 1" rfl,
    (c7_toggle_overlay oneRowUI).2 sampleRow "Answer 1" rfl (by decide) (by decide)⟩

/-! ### Overlay scrolling stays in bounds (claim C8) -/

/-- The overlay scroll invariant: the state shows `content` and the
offset lies in `[0, max 0 (wrappedLineCount - bodyHeight)]`, where
`wrappedLineCount` counts the word-wrapped lines of the content at the
cached terminal width and `bodyHeight` is the cached terminal height
minus the header line. -/
def scrollInvariant (ui : TableUI) (content : String) : Prop :=
  ui.overlay_content = some content ∧
    0 ≤ ui.overlay_offset ∧
    ui.overlay_offset ≤
      max 0 (((wrappedLines content ui.body_width).length : Int) - ui.body_height)

theorem applyNav_scrollInvariant (k : NavKey) (ui : TableUI) (content : String)
    (hinv : scrollInvariant ui content) :
    scrollInvariant (applyNav k ui) content := by
  obtain ⟨hc, h0, hm⟩ := hinv
  cases k with
  | left =>
    have h : applyNav NavKey.left ui = ui := by simp [applyNav, move_left, hc]
    rw [h]; exact ⟨hc, h0, hm⟩
  | right =>
    have h : applyNav NavKey.right ui = ui := by simp [applyNav, move_right, hc]
    rw [h]; exact ⟨hc, h0, hm⟩
  | up =>
    refine ⟨by simp [applyNav, move_up, hc], ?_, ?_⟩ <;>
      simp only [applyNav, move_up, hc] <;> omega
  | down =>
    refine ⟨by simp [applyNav, move_down, hc], ?_, ?_⟩ <;>
      simp only [applyNav, move_down, hc] <;> omega

/-- claim C8: in OVERLAY mode, any sequence of scroll presses keeps
`overlay_offset` within `[0, max 0 (wrappedLineCount - bodyHeight)]` —
never below `0`, never above the wrapped-line count minus the body
height. -/
theorem c8_scroll_clamped (ui : TableUI) (content : String) (ks : List NavKey)
    (hinv : scrollInvariant ui content) :
    scrollInvariant (applyNavs ks ui) content := by
  induction ks generalizing ui with
  | nil => exact hinv
  | cons k ks ih =>
    simpa [applyNavs, List.foldl_cons] using
      ih (applyNav k ui) (applyNav_scrollInvariant k ui content hinv)

/-- Witness for `c8_scroll_clamped`: starting from the just-opened
overlay on the 24-line content (offset `0`), a burst of scroll presses
stays in bounds. -/
theorem c8_scroll_clamped_witness :
    scrollInvariant
      (applyNavs [NavKey.down, NavKey.down, NavKey.down, NavKey.up]
        { longUI with overlay_content := some longContent })
      longContent :=
  c8_scroll_clamped { longUI with overlay_content := some longContent }
    longContent [NavKey.down, NavKey.down, NavKey.down, NavKey.up]
    ⟨rfl, by decide, by decide⟩

/-! ### Empty row cache reaches the indexing error (claim C9) -/

/-- claim C9: in TABLE mode with an empty cached row list, delete and
toggle-overlay both index `rows[selected_row]` (with `selected_row = 0`)
into the empty list, so both take the `IndexError` branch (`none`) —
neither is a guaranteed no-op. -/
theorem c9_empty_rows_index_error (ui : TableUI) (store : List Row)
    (hmode : ui.overlay_content = none) (hrows : ui.rows = [])
    (hsel : ui.selected_row = 0) :
    toggle_overlay ui = none ∧ delete_row ui store = none := by
  have hidx : pyIndex ui.rows ui.selected_row = none := by
    simp [pyIndex, hrows, hsel]
  constructor
  · simp only [toggle_overlay, hmode, hidx]
  · simp only [delete_row, hmode, hidx]

/-- Witness for `c9_empty_rows_index_error` at the concrete empty-cache
startup state. -/
theorem c9_empty_rows_index_error_witness :
    toggle_overlay emptyUI = none ∧ delete_row emptyUI [] = none :=
  c9_empty_rows_index_error emptyUI [] rfl rfl rfl

/-! ### Blank lines vanish from the wrapped overlay text (claim C10) -/

/-- claim C10: word-wrapping an empty raw line yields zero wrapped lines,
so a paragraph break inside `overlay_text` contributes nothing to the
wrapped-line sequence shared by overlay rendering and the scroll limit:
the blank line is dropped from the display and excluded from
`wrappedLineCount`. -/
theorem c10_blank_lines_dropped (s : String) (w : Nat) (l1 l2 : List String)
    (hsplit : pySplitlines s = l1 ++ "" :: l2) :
    textwrapWrap "" w = [] ∧
      wrappedLines s w =
        l1.flatMap (fun raw => textwrapWrap raw w) ++
          l2.flatMap (fun raw => textwrapWrap raw w) := by
  have hempty : textwrapWrap "" w = [] := rfl
  refine ⟨hempty, ?_⟩
  unfold wrappedLines
  rw [hsplit, List.flatMap_append, List.flatMap_cons, hempty]
  simp

/-- Witness for `c10_blank_lines_dropped`: `"a\n\nb"` wraps to exactly
`["a", "b"]` — the middle blank line is gone. -/
theorem c10_blank_lines_dropped_witness :
    textwrapWrap "" 5 = [] ∧
      wrappedLines "a\n\nb" 5 =
        (["a"] : List String).flatMap (fun raw => textwrapWrap raw 5) ++
          (["b"] : List String).flatMap (fun raw => textwrapWrap raw 5) :=
  c10_blank_lines_dropped "a\n\nb" 5 ["a"] ["b"] (by decide)

/-! ### Table-mode cell rendering (claim C6) -/

/-- A `mapM` over `Option` whose element computations all succeed is the
corresponding `map`. -/
theorem mapM_option_eq_map {α β : Type} (f : α → Option β) (g : α → β) :
    ∀ l : List α, (∀ a ∈ l, f a = some (g a)) → l.mapM f = some (l.map g) := by
  intro l
  induction l with
  | nil => intro _; rfl
  | cons a l ih =>
    intro h
    rw [List.mapM_cons, h a (List.mem_cons_self a l),
      ih (fun x hx => h x (List.mem_cons_of_mem a hx))]
    rfl

/-- A list of length 8 is an explicit 8-tuple of elements. -/
theorem row_shape_of_length_eight (row : Row) (h : row.length = 8) :
    ∃ x0 x1 x2 x3 x4 x5 x6 x7, row = [x0, x1, x2, x3, x4, x5, x6, x7] := by
  rcases row with _ | ⟨x0, _ | ⟨x1, _ | ⟨x2, _ | ⟨x3, _ | ⟨x4, _ | ⟨x5, _ | ⟨x6, _ |
    ⟨x7, _ | ⟨x8, rest⟩⟩⟩⟩⟩⟩⟩⟩⟩ <;>
    simp only [List.length_cons, List.length_nil] at h <;>
    first
      | omega
      | exact ⟨x0, x1, x2, x3, x4, x5, x6, x7, rfl⟩

/-- claim C6: in TABLE mode (schema columns, full rows), the body is,
row by row, the four visible-column cells followed by one
row-terminating `"\n"` fragment; every cell text is the value truncated
or padded to exactly 30 characters with one space of padding on each
side (32 characters in all, whatever the input length), and a cell is
emphasized (`"reverse"`) exactly when it sits at
`(selected_row, selected_col)`. -/
theorem c6_render_table_cells (ui : TableUI)
    (hmode : ui.overlay_content = none)
    (hcols : ui.cols = SCHEMA_COLS)
    (hrows : ∀ row ∈ ui.rows, row.length = 8) :
    render_body ui = some ((ui.rows.enum.map (fun p =>
        (([2, 4, 5, 7] : List Nat).enum.map (fun q =>
          (cellStyle ui p.1 q.1, pyStrFormatCell ((p.2.get? q.2).getD "")))) ++
        [("", "\n")])).flatten) ∧
      (∀ v : String,
        pyStrFormatCell v =
          " " ++ String.mk (v.data.take 30 ++
            List.replicate (30 - (v.data.take 30).length) ' ') ++ " " ∧
        (v.data.take 30 ++ List.replicate (30 - (v.data.take 30).length) ' ').length = 30 ∧
        (pyStrFormatCell v).length = 32) ∧
      (∀ r c : Nat, cellStyle ui r c =
        if (r : Int) = ui.selected_row ∧ (c : Int) = ui.selected_col
        then "reverse" else "") := by
  refine ⟨?_, ?_, fun r c => rfl⟩
  · have hmapm : ui.rows.enum.mapM (fun p => do
        let cells ← ([2, 4, 5, 7] : List Nat).enum.mapM (fun q => do
          let val ← p.2.get? q.2
          pure (cellStyle ui p.1 q.1, pyStrFormatCell val))
        pure (cells ++ [((""), "\n")])) = some (ui.rows.enum.map (fun p =>
          (([2, 4, 5, 7] : List Nat).enum.map (fun q =>
            (cellStyle ui p.1 q.1, pyStrFormatCell ((p.2.get? q.2).getD "")))) ++
          [("", "\n")])) := by
      apply mapM_option_eq_map
      intro p hp
      obtain ⟨i, row⟩ := p
      obtain ⟨hi, hx⟩ := List.mem_enum hp
      have hlen : row.length = 8 := hrows row (hx ▸ List.getElem_mem hi)
      obtain ⟨x0, x1, x2, x3, x4, x5, x6, x7, rfl⟩ := row_shape_of_length_eight row hlen
      rfl
    obtain ⟨sc, lsc, sd, cols, rows, sr, scol, oc, oo, bh, bw⟩ := ui
    simp only at hmode hcols hmapm ⊢
    subst hmode hcols
    unfold render_body
    have hvis : VISIBLE_COLS.mapM
        (fun c => SCHEMA_COLS.findIdx? (fun x => x = c)) = some [2, 4, 5, 7] := by
      decide
    rw [hvis]
    simp only [Option.bind_eq_bind, Option.some_bind] at hmapm ⊢
    rw [hmapm]
    rfl
  · intro v
    refine ⟨rfl, ?_, ?_⟩
    · simp only [List.length_append, List.length_take, List.length_replicate]
      omega
    · show (" " ++ (String.mk (v.data.take 30) ++
          String.mk (List.replicate (30 - (String.mk (v.data.take 30)).length) ' ')) ++
          " ").length = 32
      simp only [String.length_append]
      show 1 + ((v.data.take 30).length +
        (List.replicate (30 - (v.data.take 30).length) ' ').length) + 1 = 32
      simp only [List.length_replicate, List.length_take]
      omega

/-- Witness for `c6_render_table_cells` at the concrete one-row state:
the body is four 32-character cells (value padded to 30 plus one space
each side, the selected cell emphasized) and one `"\n"` fragment. -/
theorem c6_render_table_cells_witness :
    oneRowUI.overlay_content = none ∧
      oneRowUI.cols = SCHEMA_COLS ∧
      oneRowUI.rows = [sampleRow] ∧
      sampleRow.length = 8 ∧
      render_body oneRowUI = some ((oneRowUI.rows.enum.map (fun p =>
        (([2, 4, 5, 7] : List Nat).enum.map (fun q =>
          (cellStyle oneRowUI p.1 q.1, pyStrFormatCell ((p.2.get? q.2).getD "")))) ++
        [("", "\n")])).flatten) :=
  ⟨rfl, rfl, rfl, rfl, (c6_render_table_cells oneRowUI rfl rfl (by decide)).1⟩

end ChatHistoryUI
